import Mathlib

/-!
# Shell supervisor of the Gemma 3 chatbot desktop wrapper

A shallow embedding of `src/electron-main.js`.

The program is a handful of event handlers over two module-level variables
(`streamlitProcess`, `mainWindow`).  Everything else it does is a call into
the host runtime (window construction, process spawn, timers, external open,
kill, quit, console).  The embedding keeps

* the two variables as fields of `State`,
* what the host runtime owns and the handlers read back (the list of open
  windows, the pending timers, the clock, whether quit was requested),
* every call into the host as an entry of the chronological `trace`.

A member access on a variable that holds `null` throws a `TypeError` in
JavaScript; handlers therefore return an `Outcome` (state reached, error
thrown if any), and each access of a variable goes through `onSlot`.
-/

namespace ElectronMain

/-- Identifier of a spawned subprocess (the ChildProcess object). -/
abbrev ProcId := Nat

/-- Identifier of a constructed window (the BrowserWindow object). -/
abbrev WinId := Nat

/-- The `webPreferences` object literal of lines 12-15. -/
structure WebPreferences where
  nodeIntegration : Bool
  contextIsolation : Bool
deriving DecidableEq, Repr

/-- The object literal passed to `new BrowserWindow` (lines 9-18). -/
structure WindowOptions where
  width : Nat
  height : Nat
  webPreferences : WebPreferences
  icon : String
  title : String
deriving DecidableEq, Repr

/-- A pending one-shot timer created by `setTimeout`: its identifier and the
clock value (ms) from which the host may run its callback.  The program has a
single timer callback (lines 24-26), so the callback itself is not stored. -/
structure Timer where
  id : Nat
  due : Nat
deriving DecidableEq, Repr

/-- Calls from the program into the host runtime, as they appear in the source. -/
inductive Call where
  | newBrowserWindow (w : WinId) (o : WindowOptions)
  | spawn (p : ProcId) (command : String) (args : List String) (cwd : String)
  | onError (p : ProcId)
  | setTimeout (t : Nat) (delay : Nat)
  | setWindowOpenHandler (w : WinId)
  | loadURL (w : WinId) (url : String)
  | openExternal (url : String)
  | kill (p : ProcId)
  | quit
  | consoleError (msg : String) (err : String)
deriving DecidableEq, Repr

/-- What the program reads from its environment: `__dirname` and
`process.platform`. -/
structure Env where
  dirname : String
  platform : String
deriving DecidableEq, Repr

/-- Errors a handler can throw. -/
inductive JsError where
  | typeError (msg : String)
deriving DecidableEq, Repr

/-- Program variables (lines 5-6), the host-owned data the handlers depend on,
and the log of calls into the host. -/
structure State where
  /-- Module variable of line 5; `none` is `null`. -/
  streamlitProcess : Option ProcId
  /-- Module variable of line 6; `none` is `null`. -/
  mainWindow : Option WinId
  /-- The value of `BrowserWindow.getAllWindows()`: the windows that are open. -/
  windows : List WinId
  /-- Timers scheduled and not yet run. -/
  timers : List Timer
  /-- Host clock in milliseconds. -/
  now : Nat
  /-- Identifier the next constructed window gets. -/
  nextWin : Nat
  /-- Identifier the next spawned subprocess gets. -/
  nextProc : Nat
  /-- Identifier the next timer gets. -/
  nextTimer : Nat
  /-- Whether `app.quit()` has been called. -/
  quitRequested : Bool
  /-- Calls into the host so far, oldest first. -/
  trace : List Call
deriving DecidableEq, Repr

/-- State reached by a handler and the error it threw, if any. -/
structure Outcome where
  state : State
  thrown : Option JsError
deriving DecidableEq, Repr

/-- State at program start, after lines 1-6 and the registrations of lines
48-63: both variables are `null`, nothing has been called. -/
def State.init : State :=
  { streamlitProcess := none, mainWindow := none, windows := [], timers := [],
    now := 0, nextWin := 0, nextProc := 0, nextTimer := 0,
    quitRequested := false, trace := [] }

/-- Record one call into the host. -/
def State.call (s : State) (c : Call) : State :=
  { s with trace := s.trace ++ [c] }

/-- Member access `x.m(...)` on a variable: throws when the variable is `null`,
otherwise continues with the object it holds. -/
def onSlot {α : Type} (slot : Option α) (s : State) (f : α → State) : Outcome :=
  match slot with
  | none => ⟨s, some (.typeError "Cannot read properties of null")⟩
  | some a => ⟨f a, none⟩

/-- Sequencing of statements: an error thrown by the first aborts the rest. -/
def Outcome.andThen (o : Outcome) (f : State → Outcome) : Outcome :=
  match o.thrown with
  | none => f o.state
  | some _ => o

/-- Model of `path.join` on segments that need no normalisation: the segments
joined by the separator (written "/" here). -/
def pathJoin (parts : List String) : String :=
  String.intercalate "/" parts

/-- The URL literal of line 25. -/
def streamlitUrl : String := "http://localhost:8501"

/-- The delay literal of line 26, in milliseconds. -/
def loadDelay : Nat := 3000

/-- The options object of lines 9-18. -/
def windowOptions (env : Env) : WindowOptions :=
  { width := 1200
    height := 800
    webPreferences := { nodeIntegration := false, contextIsolation := true }
    icon := pathJoin [env.dirname, "icon.ico"]
    title := "Gemma 3 ChatBot" }

/-- Line 36: `pythonPath`. -/
def pythonPath (env : Env) : String :=
  pathJoin [env.dirname, "venv", "Scripts", "python.exe"]

/-- Line 37: `appPath`. -/
def appPath (env : Env) : String :=
  pathJoin [env.dirname, "app.py"]

/-- Line 39: the argument array passed to `spawn`. -/
def spawnArgs (env : Env) : List String :=
  ["-m", "streamlit", "run", appPath env, "--server.port", "8501",
   "--server.headless", "true"]

/-- Lines 35-46: `startStreamlit`.  The spawn result is stored in
`streamlitProcess` (line 39), then the error listener is registered on what
the variable holds (line 43). -/
def startStreamlit (env : Env) (s : State) : Outcome :=
  let p := s.nextProc
  let s1 : State :=
    { s with streamlitProcess := some p, nextProc := p + 1,
             trace := s.trace ++ [.spawn p (pythonPath env) (spawnArgs env) env.dirname] }
  onSlot s1.streamlitProcess s1 fun q => s1.call (.onError q)

/-- Lines 8-33: `createWindow`.  Constructs the window and stores it in
`mainWindow`, starts the subprocess, schedules the navigation timer, installs
the window-open handler on what `mainWindow` holds. -/
def createWindow (env : Env) (s : State) : Outcome :=
  let w := s.nextWin
  let s1 : State :=
    { s with mainWindow := some w, windows := s.windows ++ [w], nextWin := w + 1,
             trace := s.trace ++ [.newBrowserWindow w (windowOptions env)] }
  (startStreamlit env s1).andThen fun s2 =>
  let s3 : State :=
    { s2 with timers := s2.timers ++ [⟨s2.nextTimer, s2.now + loadDelay⟩],
              nextTimer := s2.nextTimer + 1,
              trace := s2.trace ++ [.setTimeout s2.nextTimer loadDelay] }
  onSlot s3.mainWindow s3 fun mw => s3.call (.setWindowOpenHandler mw)

/-- Lines 24-26: the timer callback.  It reads `mainWindow` when it runs. -/
def timerCallback (s : State) : Outcome :=
  onSlot s.mainWindow s fun mw => s.call (.loadURL mw streamlitUrl)

/-- Result object of the window-open handler. -/
inductive OpenAction where
  | allow
  | deny
deriving DecidableEq, Repr

/-- Lines 29-32: the window-open handler, applied to a request with `url`. -/
def windowOpenHandler (url : String) (s : State) : Outcome × OpenAction :=
  (⟨s.call (.openExternal url), none⟩, .deny)

/-- Lines 43-45: the subprocess error listener. -/
def errorListener (err : String) (s : State) : Outcome :=
  ⟨s.call (.consoleError "Failed to start Streamlit:" err), none⟩

/-- The call `app.quit()`. -/
def appQuit (s : State) : State :=
  { s with quitRequested := true, trace := s.trace ++ [.quit] }

/-- Lines 50-57: the window-all-closed handler. -/
def windowAllClosed (env : Env) (s : State) : Outcome :=
  let o1 : Outcome :=
    if s.streamlitProcess.isSome then
      onSlot s.streamlitProcess s fun p => s.call (.kill p)
    else ⟨s, none⟩
  o1.andThen fun s1 =>
  if env.platform ≠ "darwin" then ⟨appQuit s1, none⟩ else ⟨s1, none⟩

/-- Lines 59-63: the activate handler. -/
def activate (env : Env) (s : State) : Outcome :=
  if s.windows.length = 0 then createWindow env s else ⟨s, none⟩

/-- Events the host delivers to the program. -/
inductive Event where
  | ready
  | activate
  | closeWindow (w : WinId)
  | windowOpen (w : WinId) (url : String)
  | procError (p : ProcId) (err : String)
  | timerFire (t : Timer)
  | tick (ms : Nat)
deriving DecidableEq, Repr

/-- One step of the lifecycle: `none` when the host cannot deliver the event in
this state.

* nothing is delivered after `app.quit()`;
* `ready` is delivered from the initial program state only (line 48);
* closing an open window removes it from the open windows, and the
  window-all-closed handler runs when that leaves none;
* a window-open request comes from an open window and is answered by the
  handler: the host opens nothing on `deny`;
* the error listener runs for a subprocess it was registered on;
* a pending timer runs only once the clock has reached its due time, and is
  then discarded;
* `tick` lets time pass.

An error thrown by a handler is uncaught; the state it reached stays. -/
def step (env : Env) (s : State) (e : Event) : Option State :=
  if s.quitRequested then none else
  match e with
  | .ready =>
    if s.mainWindow = none ∧ s.streamlitProcess = none then
      some (createWindow env s).state
    else none
  | .activate => some (activate env s).state
  | .closeWindow w =>
    if w ∈ s.windows then
      let s1 : State := { s with windows := s.windows.erase w }
      if s1.windows.length = 0 then some (windowAllClosed env s1).state else some s1
    else none
  | .windowOpen w url =>
    if w ∈ s.windows then some (windowOpenHandler url s).1.state else none
  | .procError p err =>
    if Call.onError p ∈ s.trace then some (errorListener err s).state else none
  | .timerFire t =>
    if t ∈ s.timers ∧ t.due ≤ s.now then
      some (timerCallback { s with timers := s.timers.erase t }).state
    else none
  | .tick ms => some { s with now := s.now + ms }

/-- Deliver a list of events in order. -/
def run (env : Env) (s : State) : List Event → Option State
  | [] => some s
  | e :: es =>
    match step env s e with
    | none => none
    | some s1 => run env s1 es

/-- States the program can be in: the initial state and what events lead to. -/
inductive Reachable (env : Env) : State → Prop where
  | init : Reachable env State.init
  | step {s s1 : State} (e : Event) :
      Reachable env s → step env s e = some s1 → Reachable env s1

/-- The calls made between state `s` and a later state `s1`. -/
def callsSince (s s1 : State) : List Call :=
  s1.trace.drop s.trace.length

/-- Window constructions in a list of calls. -/
def constructions (cs : List Call) : List (WinId × WindowOptions) :=
  cs.filterMap fun c => match c with
    | .newBrowserWindow w o => some (w, o)
    | _ => none

/-- Subprocess spawns in a list of calls. -/
def spawns (cs : List Call) : List Call :=
  cs.filter fun c => match c with
    | .spawn _ _ _ _ => true
    | _ => false

/-- Identifiers of the subprocesses spawned in a list of calls. -/
def spawned (cs : List Call) : List ProcId :=
  cs.filterMap fun c => match c with
    | .spawn p _ _ _ => some p
    | _ => none

/-- Identifiers of the subprocesses sent a termination signal. -/
def killed (cs : List Call) : List ProcId :=
  cs.filterMap fun c => match c with
    | .kill p => some p
    | _ => none

/-- Navigations in a list of calls: window and URL. -/
def navigations (cs : List Call) : List (WinId × String) :=
  cs.filterMap fun c => match c with
    | .loadURL w u => some (w, u)
    | _ => none

/-- External-open calls in a list of calls. -/
def externalOpens (cs : List Call) : List String :=
  cs.filterMap fun c => match c with
    | .openExternal u => some u
    | _ => none

/-- Number of quit requests in a list of calls. -/
def quits (cs : List Call) : Nat :=
  cs.count .quit

/-- Supervision invariant of the lifecycle: every subprocess spawned so far,
other than the one whose handle the slot holds, has been sent a termination
signal; and when no window is open, all of them have. -/
def Supervised (s : State) : Prop :=
  (∀ p ∈ spawned s.trace, s.streamlitProcess ≠ some p → p ∈ killed s.trace) ∧
  (s.windows = [] → ∀ p ∈ spawned s.trace, p ∈ killed s.trace)

/-- Name of the binary directory of a virtual environment on a platform, the
`<platform-bin-dir>` of the process spawn contract: `Scripts` on "win32", `bin`
on the others. -/
def venvBinDir (platform : String) : String :=
  if platform = "win32" then "Scripts" else "bin"

/-- Name of the interpreter binary on a platform, the `python(.exe)` of the
process spawn contract: the suffix only on "win32". -/
def venvPythonName (platform : String) : String :=
  if platform = "win32" then "python.exe" else "python"

/-- Executable of the process spawn contract, following its words:
`<app-dir>/venv/<platform-bin-dir>/python(.exe)`. -/
def contractInterpreterPath (env : Env) : String :=
  pathJoin [env.dirname, "venv", venvBinDir env.platform, venvPythonName env.platform]

/-- Sample environment: an installation under `/opt/app` on "darwin". -/
def darwinEnv : Env := ⟨"/opt/app", "darwin"⟩

/-- The timer that a call of `createWindow` in state `s` schedules. -/
def scheduledTimer (s : State) : Timer := ⟨s.nextTimer, s.now + loadDelay⟩

/-- Sample state: on `darwinEnv`, ready from the initial state, then window 0
is closed (the window-all-closed handler has run). -/
def closedOnDarwin : State :=
  { streamlitProcess := some 0, mainWindow := some 0, windows := [],
    timers := [⟨0, 3000⟩], now := 0, nextWin := 1, nextProc := 1, nextTimer := 1,
    quitRequested := false,
    trace := [.newBrowserWindow 0 (windowOptions darwinEnv),
              .spawn 0 "/opt/app/venv/Scripts/python.exe"
                ["-m", "streamlit", "run", "/opt/app/app.py", "--server.port", "8501",
                 "--server.headless", "true"] "/opt/app",
              .onError 0, .setTimeout 0 3000, .setWindowOpenHandler 0, .kill 0] }

/-- Sample state: on `darwinEnv`, ready from the initial state, 3000 ms pass,
the timer runs. -/
def navigatedOnce : State :=
  { streamlitProcess := some 0, mainWindow := some 0, windows := [0], timers := [],
    now := 3000, nextWin := 1, nextProc := 1, nextTimer := 1, quitRequested := false,
    trace := [.newBrowserWindow 0 (windowOptions darwinEnv),
              .spawn 0 "/opt/app/venv/Scripts/python.exe"
                ["-m", "streamlit", "run", "/opt/app/app.py", "--server.port", "8501",
                 "--server.headless", "true"] "/opt/app",
              .onError 0, .setTimeout 0 3000, .setWindowOpenHandler 0,
              .loadURL 0 "http://localhost:8501"] }

/-! ## What each handler does, call by call -/

theorem callsSince_append (s s1 : State) (d : List Call)
    (h : s1.trace = s.trace ++ d) : callsSince s s1 = d := by
  simp [callsSince, h]

theorem startStreamlit_eq (env : Env) (s : State) :
    startStreamlit env s =
      ⟨{ s with streamlitProcess := some s.nextProc, nextProc := s.nextProc + 1,
                trace := s.trace ++ [.spawn s.nextProc (pythonPath env) (spawnArgs env) env.dirname,
                                     .onError s.nextProc] }, none⟩ := by
  simp [startStreamlit, onSlot, State.call]

theorem createWindow_eq (env : Env) (s : State) :
    createWindow env s =
      ⟨{ s with mainWindow := some s.nextWin, windows := s.windows ++ [s.nextWin],
                nextWin := s.nextWin + 1,
                streamlitProcess := some s.nextProc, nextProc := s.nextProc + 1,
                timers := s.timers ++ [⟨s.nextTimer, s.now + loadDelay⟩],
                nextTimer := s.nextTimer + 1,
                trace := s.trace ++
                  [.newBrowserWindow s.nextWin (windowOptions env),
                   .spawn s.nextProc (pythonPath env) (spawnArgs env) env.dirname,
                   .onError s.nextProc,
                   .setTimeout s.nextTimer loadDelay,
                   .setWindowOpenHandler s.nextWin] }, none⟩ := by
  simp [createWindow, startStreamlit_eq, onSlot, State.call, Outcome.andThen]

theorem createWindow_calls (env : Env) (s : State) :
    callsSince s (createWindow env s).state =
      [.newBrowserWindow s.nextWin (windowOptions env),
       .spawn s.nextProc (pythonPath env) (spawnArgs env) env.dirname,
       .onError s.nextProc,
       .setTimeout s.nextTimer loadDelay,
       .setWindowOpenHandler s.nextWin] := by
  apply callsSince_append
  rw [createWindow_eq]

theorem windowAllClosed_eq (env : Env) (s : State) :
    windowAllClosed env s =
      ⟨{ s with quitRequested := if env.platform = "darwin" then s.quitRequested else true,
                trace := s.trace ++ (s.streamlitProcess.toList.map Call.kill ++
                  if env.platform = "darwin" then [] else [Call.quit]) }, none⟩ := by
  rcases s with ⟨sp, mw, ws, ts, n, nw, np, nt, q, tr⟩
  cases sp <;> by_cases hd : env.platform = "darwin" <;>
    simp [windowAllClosed, onSlot, State.call, Outcome.andThen, appQuit, hd]

theorem windowAllClosed_calls (env : Env) (s : State) :
    callsSince s (windowAllClosed env s).state =
      s.streamlitProcess.toList.map Call.kill ++
        if env.platform = "darwin" then [] else [Call.quit] := by
  apply callsSince_append
  rw [windowAllClosed_eq]

theorem windowOpenHandler_calls (url : String) (s : State) :
    callsSince s (windowOpenHandler url s).1.state = [.openExternal url] := by
  apply callsSince_append
  simp [windowOpenHandler, State.call]

theorem errorListener_calls (err : String) (s : State) :
    callsSince s (errorListener err s).state =
      [.consoleError "Failed to start Streamlit:" err] := by
  apply callsSince_append
  simp [errorListener, State.call]

/-! ## The handlers, one by one -/

/-- C1: every call of `createWindow`, from every prior state, returns normally
and constructs exactly one window; that window is constructed with context
isolation enabled, node integration disabled, width 1200 and height 800. -/
theorem createWindow_window_configuration (env : Env) (s : State) :
    (createWindow env s).thrown = none ∧
    constructions (callsSince s (createWindow env s).state)
      = [(s.nextWin, windowOptions env)] ∧
    (windowOptions env).webPreferences.contextIsolation = true ∧
    (windowOptions env).webPreferences.nodeIntegration = false ∧
    (windowOptions env).width = 1200 ∧
    (windowOptions env).height = 800 := by
  refine ⟨by rw [createWindow_eq], ?_, rfl, rfl, rfl, rfl⟩
  rw [createWindow_calls]
  simp [constructions]

/-- C2: every call of `createWindow`, whatever the subprocess slot held before,
performs exactly one spawn; its arguments are `-m streamlit run <dir>/app.py
--server.port 8501 --server.headless true` in this order, its working directory
is the application directory, and the slot holds the handle of that spawn
afterwards. -/
theorem createWindow_single_spawn (env : Env) (s : State) :
    spawns (callsSince s (createWindow env s).state)
      = [.spawn s.nextProc (pythonPath env)
          ["-m", "streamlit", "run", pathJoin [env.dirname, "app.py"],
           "--server.port", "8501", "--server.headless", "true"]
          env.dirname] ∧
    (createWindow env s).state.streamlitProcess = some s.nextProc := by
  refine ⟨?_, by rw [createWindow_eq]⟩
  rw [createWindow_calls]
  simp [spawns, spawnArgs, appPath]

/-- C3: for every URL, the window-open handler answers `deny`, and the only call
it makes is one external open of that URL: it navigates nothing, constructs no
window and leaves the open windows as they were. -/
theorem windowOpenHandler_denies_and_opens_externally (url : String) (s : State) :
    (windowOpenHandler url s).2 = OpenAction.deny ∧
    (windowOpenHandler url s).1.thrown = none ∧
    callsSince s (windowOpenHandler url s).1.state = [.openExternal url] ∧
    externalOpens (callsSince s (windowOpenHandler url s).1.state) = [url] ∧
    navigations (callsSince s (windowOpenHandler url s).1.state) = [] ∧
    constructions (callsSince s (windowOpenHandler url s).1.state) = [] ∧
    (windowOpenHandler url s).1.state.windows = s.windows := by
  rw [windowOpenHandler_calls]
  simp [windowOpenHandler, State.call, externalOpens, navigations, constructions]

/-- C5: in every state the window-all-closed handler returns normally, and the
termination signals it sends are exactly: one to the held subprocess handle
when the slot holds one, none when the slot is null. -/
theorem windowAllClosed_kills_held_handle (env : Env) (s : State) :
    (windowAllClosed env s).thrown = none ∧
    killed (callsSince s (windowAllClosed env s).state)
      = s.streamlitProcess.toList := by
  refine ⟨by rw [windowAllClosed_eq], ?_⟩
  rw [windowAllClosed_calls]
  cases s.streamlitProcess <;> by_cases hd : env.platform = "darwin" <;>
    simp [killed, hd]

/-- C6: in every state the activate handler, when no window is open, constructs
exactly one window and spawns exactly one subprocess (and that window is then
the only open one); when a window is open it does nothing and the state is
unchanged. -/
theorem activate_creates_only_without_windows (env : Env) (s : State) :
    if s.windows.length = 0 then
      (activate env s).thrown = none ∧
      constructions (callsSince s (activate env s).state)
        = [(s.nextWin, windowOptions env)] ∧
      spawned (callsSince s (activate env s).state) = [s.nextProc] ∧
      (activate env s).state.windows = [s.nextWin]
    else
      activate env s = ⟨s, none⟩ := by
  by_cases h : s.windows.length = 0
  · have hw : s.windows = [] := List.length_eq_zero.mp h
    simp only [h, if_true, activate]
    refine ⟨by rw [createWindow_eq], ?_, ?_, ?_⟩
    · rw [createWindow_calls]; simp [constructions]
    · rw [createWindow_calls]; simp [spawned]
    · rw [createWindow_eq]; simp [hw]
  · simp [h, activate]

/-- C8: for every platform value and every state, the window-all-closed handler
requests quit exactly when the platform is not "darwin"; the calls it makes are
the termination signal to the held handle (if any) followed by the quit request
(if any), so the signal is sent on both branches and before the quit. -/
theorem windowAllClosed_quit_iff_not_darwin (env : Env) (s : State) :
    (Call.quit ∈ callsSince s (windowAllClosed env s).state
      ↔ env.platform ≠ "darwin") ∧
    callsSince s (windowAllClosed env s).state
      = s.streamlitProcess.toList.map Call.kill ++
          (if env.platform = "darwin" then [] else [Call.quit]) ∧
    killed (callsSince s (windowAllClosed env s).state)
      = s.streamlitProcess.toList := by
  rw [windowAllClosed_calls]
  cases s.streamlitProcess <;> by_cases hd : env.platform = "darwin" <;>
    simp [killed, hd]

/-- C9: for every error value the subprocess error listener only logs: its one
call is the console log, both variables are unchanged, and it spawns nothing,
signals nothing, navigates nothing and requests no quit. -/
theorem errorListener_only_logs (err : String) (s : State) :
    errorListener err s
      = ⟨{ s with trace := s.trace ++
            [.consoleError "Failed to start Streamlit:" err] }, none⟩ ∧
    (errorListener err s).state.streamlitProcess = s.streamlitProcess ∧
    (errorListener err s).state.mainWindow = s.mainWindow ∧
    spawned (callsSince s (errorListener err s).state) = [] ∧
    killed (callsSince s (errorListener err s).state) = [] ∧
    navigations (callsSince s (errorListener err s).state) = [] ∧
    Call.quit ∉ callsSince s (errorListener err s).state ∧
    (errorListener err s).state.quitRequested = s.quitRequested := by
  rw [errorListener_calls]
  simp [errorListener, State.call, spawned, killed, navigations]

/-! ## The lifecycle -/

theorem spawned_append (a b : List Call) : spawned (a ++ b) = spawned a ++ spawned b := by
  simp [spawned]

theorem killed_append (a b : List Call) : killed (a ++ b) = killed a ++ killed b := by
  simp [killed]

theorem createWindow_supervised (env : Env) (s : State)
    (h : ∀ p ∈ spawned s.trace, p ∈ killed s.trace) :
    Supervised (createWindow env s).state := by
  rw [createWindow_eq]
  constructor
  · intro p hp hne
    simp only [spawned_append, killed_append, List.mem_append] at hp ⊢
    rcases hp with hp | hp
    · exact Or.inl (h p hp)
    · simp [spawned] at hp
      simp [hp] at hne
  · intro hw
    simp at hw

theorem windowAllClosed_supervised (env : Env) (s : State)
    (h : ∀ p ∈ spawned s.trace, s.streamlitProcess ≠ some p → p ∈ killed s.trace) :
    Supervised (windowAllClosed env s).state := by
  rw [windowAllClosed_eq]
  have key : ∀ p ∈ spawned (s.trace ++ (s.streamlitProcess.toList.map Call.kill ++
      if env.platform = "darwin" then [] else [Call.quit])),
      p ∈ killed (s.trace ++ (s.streamlitProcess.toList.map Call.kill ++
      if env.platform = "darwin" then [] else [Call.quit])) := by
    intro p hp
    have hp1 : p ∈ spawned s.trace := by
      cases s.streamlitProcess <;> by_cases hd : env.platform = "darwin" <;>
        simpa [spawned_append, spawned, hd] using hp
    by_cases hq : s.streamlitProcess = some p
    · simp [killed_append, killed, hq]
    · simp only [killed_append, List.mem_append]
      exact Or.inl (h p hp1 hq)
  exact ⟨fun p hp _ => key p hp, fun _ p hp => key p hp⟩

theorem supervised_of_calls (s s1 : State) (d : List Call)
    (hs : Supervised s)
    (hp : s1.streamlitProcess = s.streamlitProcess) (hw : s1.windows = s.windows)
    (ht : s1.trace = s.trace ++ d) (hd : spawned d = []) : Supervised s1 := by
  obtain ⟨h1, h2⟩ := hs
  constructor
  · intro p hmem hne
    rw [ht, spawned_append, hd, List.append_nil] at hmem
    rw [ht, killed_append, List.mem_append]
    rw [hp] at hne
    exact Or.inl (h1 p hmem hne)
  · intro hw1 p hmem
    rw [ht, spawned_append, hd, List.append_nil] at hmem
    rw [ht, killed_append, List.mem_append]
    rw [hw] at hw1
    exact Or.inl (h2 hw1 p hmem)

theorem step_supervised (env : Env) (s s1 : State) (e : Event)
    (hs : Supervised s) (h : step env s e = some s1) : Supervised s1 := by
  have hs0 := hs
  obtain ⟨h1, h2⟩ := hs
  unfold step at h
  split at h
  · simp at h
  cases e with
  | ready =>
    simp only at h
    split at h
    · rename_i hg
      simp only [Option.some.injEq] at h
      subst h
      apply createWindow_supervised
      intro p hp
      exact h1 p hp (by simp [hg.2])
    · simp at h
  | activate =>
    simp only [Option.some.injEq] at h
    subst h
    unfold activate
    split
    · rename_i hz
      apply createWindow_supervised
      exact h2 (List.length_eq_zero.mp hz)
    · exact hs0
  | closeWindow w =>
    simp only at h
    split at h
    · split at h
      · simp only [Option.some.injEq] at h
        subst h
        apply windowAllClosed_supervised
        exact h1
      · rename_i hz
        simp only [Option.some.injEq] at h
        subst h
        refine ⟨h1, ?_⟩
        intro hw
        simp only at hz hw
        simp [hw] at hz
    · simp at h
  | windowOpen w url =>
    simp only at h
    split at h
    · simp only [Option.some.injEq] at h
      subst h
      exact supervised_of_calls s _ [.openExternal url] hs0 rfl rfl rfl rfl
    · simp at h
  | procError p err =>
    simp only at h
    split at h
    · simp only [Option.some.injEq] at h
      subst h
      exact supervised_of_calls s _ [.consoleError "Failed to start Streamlit:" err]
        hs0 rfl rfl rfl rfl
    · simp at h
  | timerFire t =>
    simp only at h
    split at h
    · simp only [Option.some.injEq] at h
      subst h
      cases hm : s.mainWindow with
      | none =>
        exact supervised_of_calls s _ [] hs0 (by simp [timerCallback, onSlot, hm])
          (by simp [timerCallback, onSlot, hm]) (by simp [timerCallback, onSlot, hm]) rfl
      | some mw =>
        exact supervised_of_calls s _ [.loadURL mw streamlitUrl] hs0
          (by simp [timerCallback, onSlot, hm, State.call])
          (by simp [timerCallback, onSlot, hm, State.call])
          (by simp [timerCallback, onSlot, hm, State.call]) rfl
    · simp at h
  | tick ms =>
    simp only [Option.some.injEq] at h
    subst h
    exact hs0

/-- Shape of a step: either it is a call of `createWindow` (made from the
initial program state or with no window open), or it leaves both variables and
the identifier counters alone, constructs and spawns nothing, and navigates
only by running a due timer, once, on the window `mainWindow` holds. -/
theorem step_cases (env : Env) (s s1 : State) (e : Event)
    (h : step env s e = some s1) :
    (s1 = (createWindow env s).state ∧
      ((s.mainWindow = none ∧ s.streamlitProcess = none) ∨ s.windows = [])) ∨
    (s1.streamlitProcess = s.streamlitProcess ∧ s1.mainWindow = s.mainWindow ∧
      s1.nextProc = s.nextProc ∧ s.now ≤ s1.now ∧
      ∃ d, s1.trace = s.trace ++ d ∧ spawned d = [] ∧ constructions d = [] ∧
        ((s1.timers = s.timers ∧ navigations d = []) ∨
         (∃ t, t ∈ s.timers ∧ t.due ≤ s.now ∧ s1.timers = s.timers.erase t ∧
            navigations d = s.mainWindow.toList.map fun w => (w, streamlitUrl)))) := by
  unfold step at h
  split at h
  · simp at h
  cases e with
  | ready =>
    simp only at h
    split at h
    · rename_i hg
      simp only [Option.some.injEq] at h
      exact Or.inl ⟨h.symm, Or.inl hg⟩
    · simp at h
  | activate =>
    simp only [Option.some.injEq] at h
    subst h
    unfold activate
    split
    · rename_i hz
      exact Or.inl ⟨rfl, Or.inr (List.length_eq_zero.mp hz)⟩
    · exact Or.inr ⟨rfl, rfl, rfl, le_refl _, [], by simp, rfl, rfl, Or.inl ⟨rfl, rfl⟩⟩
  | closeWindow w =>
    simp only at h
    split at h
    · split at h
      · simp only [Option.some.injEq] at h
        subst h
        rw [windowAllClosed_eq]
        refine Or.inr ⟨rfl, rfl, rfl, le_refl _, _, rfl, ?_, ?_, Or.inl ⟨rfl, ?_⟩⟩ <;>
          cases s.streamlitProcess <;> by_cases hd : env.platform = "darwin" <;>
            simp [spawned, constructions, navigations, hd]
      · simp only [Option.some.injEq] at h
        subst h
        exact Or.inr ⟨rfl, rfl, rfl, le_refl _, [], by simp, rfl, rfl, Or.inl ⟨rfl, rfl⟩⟩
    · simp at h
  | windowOpen w url =>
    simp only at h
    split at h
    · simp only [Option.some.injEq] at h
      subst h
      exact Or.inr ⟨rfl, rfl, rfl, le_refl _, [.openExternal url], rfl, rfl, rfl,
        Or.inl ⟨rfl, rfl⟩⟩
    · simp at h
  | procError p err =>
    simp only at h
    split at h
    · simp only [Option.some.injEq] at h
      subst h
      exact Or.inr ⟨rfl, rfl, rfl, le_refl _,
        [.consoleError "Failed to start Streamlit:" err], rfl, rfl, rfl, Or.inl ⟨rfl, rfl⟩⟩
    · simp at h
  | timerFire t =>
    simp only at h
    split at h
    · rename_i hg
      simp only [Option.some.injEq] at h
      subst h
      cases hm : s.mainWindow with
      | none =>
        refine Or.inr ⟨?_, ?_, ?_, ?_, [], ?_, rfl, rfl, Or.inr ⟨t, hg.1, hg.2, ?_, ?_⟩⟩ <;>
          simp [timerCallback, onSlot, hm, navigations]
      | some mw =>
        refine Or.inr ⟨?_, ?_, ?_, ?_, [.loadURL mw streamlitUrl], ?_, rfl, rfl,
          Or.inr ⟨t, hg.1, hg.2, ?_, ?_⟩⟩ <;>
          simp [timerCallback, onSlot, hm, State.call, navigations]
    · simp at h
  | tick ms =>
    simp only [Option.some.injEq] at h
    subst h
    exact Or.inr ⟨rfl, rfl, rfl, Nat.le_add_right _ _, [], by simp, rfl, rfl,
      Or.inl ⟨rfl, rfl⟩⟩

theorem reachable_supervised (env : Env) (s : State) (hr : Reachable env s) :
    Supervised s := by
  induction hr with
  | init => constructor <;> simp [State.init, spawned]
  | step e _ hstep ih => exact step_supervised env _ _ e ih hstep

/-- Subprocess identifiers are handed out in order: the subprocesses spawned so
far are `0, 1, ..` up to the counter. -/
theorem reachable_spawned_range (env : Env) (s : State) (hr : Reachable env s) :
    spawned s.trace = List.range s.nextProc := by
  induction hr with
  | init => simp [State.init, spawned]
  | step e _ hstep ih =>
    rcases step_cases env _ _ e hstep with ⟨h, _⟩ | ⟨_, _, hn, _, d, ht, hd, _⟩
    · rw [h, createWindow_eq]
      show spawned (_ ++ _) = List.range (_ + 1)
      rw [spawned_append, ih, List.range_succ]
      rfl
    · rw [ht, spawned_append, hd, hn, ih, List.append_nil]

theorem run_reachable (env : Env) (es : List Event) :
    ∀ s u : State, Reachable env s → run env s es = some u → Reachable env u := by
  induction es with
  | nil =>
    intro s u hr h
    simp only [run, Option.some.injEq] at h
    exact h ▸ hr
  | cons e es ih =>
    intro s u hr h
    unfold run at h
    split at h
    · simp at h
    · rename_i s1 hs1
      exact ih s1 u (Reachable.step e hr hs1) h

/-- C10: in every reachable state of the lifecycle (ready from the initial
state, activate, window closings with window-all-closed run when none is left,
window-open requests, subprocess errors, timers, passing time), every
subprocess spawned so far other than the one whose handle is held has been sent
a termination signal; spawned subprocesses are pairwise distinct and at most one
of them has not been signalled; and a step that spawns a subprocess is taken
only when all subprocesses spawned before have been signalled. -/
theorem reachable_subprocesses_signalled (env : Env) (s : State)
    (hr : Reachable env s) :
    (∀ p ∈ spawned s.trace, s.streamlitProcess ≠ some p → p ∈ killed s.trace) ∧
    (spawned s.trace).Nodup ∧
    (∀ p ∈ spawned s.trace, ∀ q ∈ spawned s.trace,
      p ∉ killed s.trace → q ∉ killed s.trace → p = q) ∧
    (∀ e s1, step env s e = some s1 → spawned (callsSince s s1) ≠ [] →
      ∀ p ∈ spawned s.trace, p ∈ killed s.trace) := by
  obtain ⟨h1, h2⟩ := reachable_supervised env s hr
  refine ⟨h1, ?_, ?_, ?_⟩
  · rw [reachable_spawned_range env s hr]
    exact List.nodup_range _
  · intro p hp q hq hnp hnq
    have hp1 : s.streamlitProcess = some p := by
      by_contra hne
      exact hnp (h1 p hp hne)
    have hq1 : s.streamlitProcess = some q := by
      by_contra hne
      exact hnq (h1 q hq hne)
    rw [hp1] at hq1
    exact Option.some.inj hq1
  · intro e s1 hstep hsp
    rcases step_cases env s s1 e hstep with ⟨_, hg | hw⟩ | ⟨_, _, _, _, d, ht, hd, _⟩
    · intro p hp
      exact h1 p hp (by simp [hg.2])
    · exact h2 hw
    · rw [callsSince_append s s1 d ht] at hsp
      exact absurd hd hsp

/-- C10 at a concrete state on "darwin": ready from the initial state, then the
window is closed.  The state is reachable, and the activate step that follows
spawns a subprocess with subprocess 0 already signalled. -/
theorem reachable_subprocesses_signalled_witness :
    Reachable darwinEnv closedOnDarwin ∧
    spawned closedOnDarwin.trace = [0] ∧
    0 ∈ killed closedOnDarwin.trace := by
  have hr : Reachable darwinEnv closedOnDarwin :=
    run_reachable darwinEnv [.ready, .closeWindow 0] State.init _
      Reachable.init (by decide)
  refine ⟨hr, by decide, ?_⟩
  exact (reachable_subprocesses_signalled darwinEnv closedOnDarwin hr).2.2.2
    Event.activate (activate darwinEnv closedOnDarwin).state rfl (by decide) 0 (by decide)

/-! ## Delayed navigation -/

theorem constructions_append (a b : List Call) :
    constructions (a ++ b) = constructions a ++ constructions b := by
  simp [constructions]

theorem navigations_append (a b : List Call) :
    navigations (a ++ b) = navigations a ++ navigations b := by
  simp [navigations]

theorem run_invariant (env : Env) (P : State → Prop)
    (hP : ∀ v e v1, P v → step env v e = some v1 → P v1) (es : List Event) :
    ∀ s u : State, P s → run env s es = some u → P u := by
  induction es with
  | nil =>
    intro s u hs h
    simp only [run, Option.some.injEq] at h
    exact h ▸ hs
  | cons e es ih =>
    intro s u hs h
    unfold run at h
    split at h
    · simp at h
    · rename_i s1 hs1
      exact ih s1 u (hP s e s1 hs hs1) h

/-- What holds after a call of `createWindow` that found no timer pending, as
long as no further window is constructed: `mainWindow` holds the window `w` of
the call, and either the timer `tm` of the call is the one pending timer and
nothing was navigated, or no timer is pending, the clock has reached the due
time, and the one navigation made was of `w` to the Streamlit URL. -/
theorem single_window_invariant (env : Env) (s0 : State) (w : WinId) (tm : Timer) :
    ∀ v e v1,
      (∃ d, v.trace = s0.trace ++ d ∧ (constructions d = [] →
        v.mainWindow = some w ∧
        ((v.timers = [tm] ∧ navigations d = []) ∨
         (v.timers = [] ∧ navigations d = [(w, streamlitUrl)] ∧ tm.due ≤ v.now)))) →
      step env v e = some v1 →
      (∃ d, v1.trace = s0.trace ++ d ∧ (constructions d = [] →
        v1.mainWindow = some w ∧
        ((v1.timers = [tm] ∧ navigations d = []) ∨
         (v1.timers = [] ∧ navigations d = [(w, streamlitUrl)] ∧ tm.due ≤ v1.now)))) := by
  rintro v e v1 ⟨d, hd, hK⟩ hstep
  rcases step_cases env v v1 e hstep with ⟨h, _⟩ | ⟨_, hmw, _, hnow, d1, ht, _, hc, hnav⟩
  · refine ⟨d ++ callsSince v v1, ?_, ?_⟩
    · rw [h, createWindow_calls, createWindow_eq, hd]
      simp
    · intro hcon
      rw [h, createWindow_calls] at hcon
      simp [constructions] at hcon
  · refine ⟨d ++ d1, by rw [ht, hd, List.append_assoc], ?_⟩
    intro hcon
    rw [constructions_append, hc, List.append_nil] at hcon
    obtain ⟨hw, hT⟩ := hK hcon
    refine ⟨by rw [hmw, hw], ?_⟩
    rcases hnav with ⟨hts, hn⟩ | ⟨t, htm, hdue, hts, hn⟩
    · rcases hT with ⟨hp, hz⟩ | ⟨hp, hz, hle⟩
      · exact Or.inl ⟨by rw [hts, hp], by rw [navigations_append, hn, hz]; rfl⟩
      · exact Or.inr ⟨by rw [hts, hp], by rw [navigations_append, hn, hz]; rfl,
          le_trans hle hnow⟩
    · rcases hT with ⟨hp, hz⟩ | ⟨hp, _, _⟩
      · rw [hp, List.mem_singleton] at htm
        subst htm
        refine Or.inr ⟨by rw [hts, hp]; simp, ?_, le_trans hdue hnow⟩
        rw [navigations_append, hn, hz, hw]
        rfl
      · rw [hp] at htm
        simp at htm

/-- C4, as it holds: for a call of `createWindow` made while no timer is
pending, and every sequence of events after it during which no further window
is constructed (no further `createWindow` call), the call itself navigates
nothing, nothing is navigated while fewer than 3000 ms have passed since the
call, and the navigations made are: none while the timer of the call is
pending, and exactly one once it has run, of the window of the call to
`http://localhost:8501`. -/
theorem createWindow_navigates_once_single_window (env : Env) (s u : State)
    (es : List Event)
    (hno : s.timers = [])
    (hrun : run env (createWindow env s).state es = some u)
    (hone : constructions (callsSince (createWindow env s).state u) = []) :
    navigations (callsSince s (createWindow env s).state) = [] ∧
    (u.now < s.now + 3000 →
      navigations (callsSince (createWindow env s).state u) = []) ∧
    navigations (callsSince (createWindow env s).state u)
      = (if scheduledTimer s ∈ u.timers then []
         else [(s.nextWin, "http://localhost:8501")]) := by
  have hstart : ∃ d, (createWindow env s).state.trace
      = (createWindow env s).state.trace ++ d ∧ (constructions d = [] →
        (createWindow env s).state.mainWindow = some s.nextWin ∧
        (((createWindow env s).state.timers = [scheduledTimer s] ∧ navigations d = []) ∨
         ((createWindow env s).state.timers = [] ∧
            navigations d = [(s.nextWin, streamlitUrl)] ∧
            (scheduledTimer s).due ≤ (createWindow env s).state.now))) := by
    refine ⟨[], by simp, fun _ => ?_⟩
    rw [createWindow_eq]
    exact ⟨rfl, Or.inl ⟨by simp [hno, scheduledTimer], rfl⟩⟩
  obtain ⟨d, hd, hK⟩ := run_invariant env _
    (single_window_invariant env (createWindow env s).state s.nextWin (scheduledTimer s))
    es _ u hstart hrun
  rw [callsSince_append _ u d hd] at hone ⊢
  obtain ⟨_, hT⟩ := hK hone
  refine ⟨?_, ?_, ?_⟩
  · rw [createWindow_calls]; rfl
  · intro hlt
    rcases hT with ⟨_, hz⟩ | ⟨_, _, hle⟩
    · exact hz
    · simp only [scheduledTimer, loadDelay] at hle
      omega
  · rcases hT with ⟨hp, hz⟩ | ⟨hp, hz, _⟩
    · simp [hp, hz]
    · simp [hp, hz, streamlitUrl]

/-- C4 at a concrete run on "darwin": ready from the initial state, 3000 ms
pass, the timer runs; the one navigation is of window 0. -/
theorem createWindow_navigates_once_single_window_witness :
    State.init.timers = [] ∧
    run darwinEnv (createWindow darwinEnv State.init).state
      [.tick 3000, .timerFire ⟨0, 3000⟩] = some navigatedOnce ∧
    constructions (callsSince (createWindow darwinEnv State.init).state navigatedOnce) = [] ∧
    navigations (callsSince (createWindow darwinEnv State.init).state navigatedOnce)
      = [(0, "http://localhost:8501")] := by
  have h := createWindow_navigates_once_single_window darwinEnv State.init navigatedOnce
    [.tick 3000, .timerFire ⟨0, 3000⟩] rfl (by decide) (by decide)
  refine ⟨rfl, by decide, by decide, ?_⟩
  rw [h.2.2]
  decide

/-- C4 fails as stated: on "darwin", ready at time 0 creates window 0; it is
closed and, at time 1000, activate creates window 1 (timers due at 3000 and 4000
are pending).  At time 3000 the first timer runs and navigates window 1, less
than 3000 ms after its creation; at time 4000 the second timer navigates window
1 again.  Window 0 is never navigated although its timer ran; window 1 is
navigated twice. -/
theorem createWindow_navigation_counterexample :
    (run darwinEnv State.init [.ready, .tick 1000, .closeWindow 0, .activate]).map
        (fun v => (v.now, v.mainWindow, (constructions v.trace).map Prod.fst, v.timers))
      = some (1000, some 1, [0, 1], [⟨0, 3000⟩, ⟨1, 4000⟩]) ∧
    (run darwinEnv State.init
        [.ready, .tick 1000, .closeWindow 0, .activate, .tick 2000,
         .timerFire ⟨0, 3000⟩]).map
        (fun v => (v.now, navigations v.trace, v.timers))
      = some (3000, [(1, "http://localhost:8501")], [⟨1, 4000⟩]) ∧
    (run darwinEnv State.init
        [.ready, .tick 1000, .closeWindow 0, .activate, .tick 2000,
         .timerFire ⟨0, 3000⟩, .tick 1000, .timerFire ⟨1, 4000⟩]).map
        (fun v => (v.now, navigations v.trace, v.timers))
      = some (4000, [(1, "http://localhost:8501"), (1, "http://localhost:8501")], []) := by
  refine ⟨by decide, by decide, by decide⟩

/-! ## The interpreter path -/

/-- C7, the code on "darwin": `startStreamlit` spawns
`<dir>/venv/Scripts/python.exe`, as on every platform, where the process spawn
contract names `<dir>/venv/bin/python`. -/
theorem startStreamlit_interpreter_on_darwin :
    spawns (callsSince State.init (startStreamlit darwinEnv State.init).state)
      = [.spawn 0 "/opt/app/venv/Scripts/python.exe"
          ["-m", "streamlit", "run", "/opt/app/app.py", "--server.port", "8501",
           "--server.headless", "true"] "/opt/app"] ∧
    contractInterpreterPath darwinEnv = "/opt/app/venv/bin/python" ∧
    pythonPath darwinEnv ≠ contractInterpreterPath darwinEnv ∧
    (∀ dir p q : String, pythonPath ⟨dir, p⟩ = pythonPath ⟨dir, q⟩) := by
  refine ⟨by decide, by decide, by decide, fun _ _ _ => rfl⟩

end ElectronMain
